import Mathlib

/-!
Verification of the batch-process-docs pipeline (exospherehost/exosphereprojects).

Shallow embedding of the core nodes under src/batch-process-docs/nodes:
polling.py, chunking.py, validation.py, failure_handling.py,
split_results.py, file_parsing.py.

JSON values are modelled by the inductive `Json`; Python dictionaries become
association lists (key lookup returns the first binding, which coincides with
Python dict semantics since dict keys are unique).  External effects (the
Gemini client, the filesystem, `json.loads`) are passed in as oracle
functions, so every definition is executable.  Raising an exception is
modelled with `Except`/explicit outcome constructors.
-/

namespace BatchProcessDocs

/-- A JSON value, as produced by Python's `json.loads`.  Numbers are modelled
as integers, which covers every value the pipeline manipulates. -/
inductive Json where
  | str (s : String)
  | num (n : Int)
  | bool (b : Bool)
  | null
  | arr (elems : List Json)
  | obj (fields : List (String × Json))

/-- Key lookup in a JSON object: `d[k]` / `d.get(k)` on a Python dict.
Returns `none` on a non-object or a missing key. -/
def Json.get : Json → String → Option Json
  | .obj fields, k => List.lookup k fields
  | _, _ => none

/-- Python truthiness (`not v` in the source): `None`, `False`, `0`, `""`,
`[]` and `{}` are falsy, everything else truthy.  A missing key
(`d.get(k)` returning `None`) is falsy. -/
def jsonFalsy : Option Json → Bool
  | none => true
  | some .null => true
  | some (.bool b) => !b
  | some (.num n) => n == 0
  | some (.str s) => s == ""
  | some (.arr es) => es.isEmpty
  | some (.obj fs) => fs.isEmpty

/-- The string held in an optional JSON value, with a default for a missing
key; mirrors `d.get(k, default)` at places where the source then applies a
string operation, so a non-string value (which would raise in Python and is
unreachable on the paths we verify) also maps to the default. -/
def strOrD (v : Option Json) (d : String) : String :=
  match v with
  | some (.str s) => s
  | _ => d

/-- Models `d.get(k, default)` for an arbitrary default JSON value. -/
def getD (v : Option Json) (d : Json) : Json :=
  match v with
  | some j => j
  | none => d

/-- Python's `str.strip()`: remove leading and trailing whitespace. -/
def pyStrip (s : String) : String :=
  String.mk (((s.data.dropWhile Char.isWhitespace).reverse.dropWhile
    Char.isWhitespace).reverse)

/-- Python's `s.split(sep)` for a one-character separator, over the
character list: splitting never drops empty pieces. -/
def pySplitChars (c : Char) : List Char → List (List Char)
  | [] => [[]]
  | x :: xs =>
    match pySplitChars c xs with
    | [] => [[]]
    | piece :: pieces =>
      if x == c then [] :: piece :: pieces else (x :: piece) :: pieces

/-- Python's `s.split('\n')`. -/
def pySplitNl (s : String) : List String :=
  (pySplitChars '\n' s.data).map String.mk

/-! ## Poll Controller — nodes/polling.py -/

/-- Token-usage metadata of one Gemini response
(`response.usage_metadata`); `cached_content_token_count` is optional and
read with `getattr(usage, 'cached_content_token_count', 0)`. -/
structure UsageMetadata where
  prompt_token_count : Int
  candidates_token_count : Int
  total_token_count : Int
  cached_content_token_count : Option Int

/-- One Gemini response inside `batch_job.dest.inlined_responses`.  Each
candidate is collapsed to the text the source reads from it
(`candidates[0].content.parts[0].text`). -/
structure GenResponse where
  response_id : String
  model_version : String
  candidates : List String
  usage_metadata : UsageMetadata

/-- An element of `batch_job.dest.inlined_responses`; the source only reads
its `response` attribute. -/
structure InlinedResponse where
  response : GenResponse

/-- Models `batch_job.dest`.  `inlined_responses = none` models the attribute being
absent (`hasattr` false); likewise for `file_name`. -/
structure BatchDest where
  inlined_responses : Option (List InlinedResponse)
  file_name : Option String

/-- The object returned by `client.batches.get(name=task_id)`:
`state_name` is `batch_job.state.name`; `dest = none` models a missing
`dest` attribute. -/
structure BatchJob where
  state_name : String
  dest : Option BatchDest

/-- The `status_mapping` dict of `PollingNode._check_task_status`. -/
def status_mapping : List (String × String) :=
  [("JOB_STATE_PENDING", "pending"),
   ("JOB_STATE_RUNNING", "processing"),
   ("JOB_STATE_SUCCEEDED", "completed"),
   ("JOB_STATE_FAILED", "failed"),
   ("JOB_STATE_CANCELLING", "processing"),
   ("JOB_STATE_CANCELLED", "failed")]

/-- Models `status_mapping.get(batch_job.state.name, "pending")`. -/
def mapStatus (state_name : String) : String :=
  (List.lookup state_name status_mapping).getD "pending"

/-- Embeds `PollingNode._check_task_status`: on a successful query, the mapped
status and the batch job; on a transport error (`except Exception`), the
pair `("failed", None)`. -/
def checkTaskStatus (statusQuery : Except String BatchJob) : String × Option BatchJob :=
  match statusQuery with
  | .ok batch_job => (mapStatus batch_job.state_name, some batch_job)
  | .error _ => ("failed", none)

/-- The dict built for one inlined response in
`PollingNode._get_task_results`. -/
def buildInlineResult (ir : InlinedResponse) : Json :=
  let response := ir.response
  let content :=
    match response.candidates with
    | c :: _ => c
    | [] => "No content"
  let usage := response.usage_metadata
  Json.obj
    [("response_id", .str response.response_id),
     ("model_version", .str response.model_version),
     ("content", .str content),
     ("usage_metadata", Json.obj
        [("prompt_token_count", .num usage.prompt_token_count),
         ("candidates_token_count", .num usage.candidates_token_count),
         ("total_token_count", .num usage.total_token_count),
         ("cached_content_token_count", .num (usage.cached_content_token_count.getD 0))])]

/-- Models `results_data.strip().split('\n')` filtered by `if line.strip():` —
the lines of a JSONL download that get parsed. -/
def jsonlLines (results_data : String) : List String :=
  (pySplitNl (pyStrip results_data)).filter (fun line => !(pyStrip line == ""))

/-- The dict returned by `PollingNode._get_task_results`
(`task_id`/`status`/optional `error`/`results`). -/
structure TaskResult where
  task_id : String
  status : String
  error : Option String
  results : List Json


/-- The failure dict of `_get_task_results` when a completed batch has
neither inlined responses nor an output file. -/
def noOutputResult (task_id : String) : TaskResult :=
  { task_id := task_id, status := "failed",
    error := some "No output file or inlined responses available", results := [] }

/-- Embeds `PollingNode._get_task_results`.  `jsonLoads` is the `json.loads` oracle
for JSONL lines and `download` the `client.files.download` oracle (bytes
already decoded to a string). -/
def getTaskResults (jsonLoads : String → Json) (download : String → String)
    (task_id : String) (batch_job : BatchJob) : TaskResult :=
  if !(batch_job.state_name == "JOB_STATE_SUCCEEDED") then
    { task_id := task_id, status := batch_job.state_name, error := none, results := [] }
  else
    match batch_job.dest with
    | none => noOutputResult task_id
    | some dest =>
      match dest.inlined_responses with
      | some irs =>
        { task_id := task_id, status := "completed", error := none,
          results := irs.map buildInlineResult }
      | none =>
        match dest.file_name with
        | some file_name =>
          if !(file_name == "") then
            { task_id := task_id, status := "completed", error := none,
              results := (jsonlLines (download file_name)).map jsonLoads }
          else noOutputResult task_id
        | none => noOutputResult task_id

/-- Outcome of `PollingNode.execute`: the completed branch returns the task
result, the failed branch returns `{"error": "Task failed"}`, every other
status raises `ReQueueAfterSignal(timedelta(seconds=30))`; `raised` stands
for an uncaught exception. -/
inductive PollOutcome where
  | outputs (task_result : TaskResult)
  | failedOutputs
  | requeue (delaySeconds : Nat)
  | raised


/-- Embeds `PollingNode.execute` after input parsing: check the status, then branch
on `completed` / `failed` / requeue-after-30-seconds. -/
def pollingExecute (jsonLoads : String → Json) (download : String → String)
    (task_id : String) (statusQuery : Except String BatchJob) : PollOutcome :=
  let checked := checkTaskStatus statusQuery
  if checked.1 == "completed" then
    match checked.2 with
    | some batch_job => .outputs (getTaskResults jsonLoads download task_id batch_job)
    | none => .raised
  else if checked.1 == "failed" then .failedOutputs
  else .requeue 30

/-! ## Chunk Planner — nodes/chunking.py -/

/-- The slicing loop of `ChunkingNode.execute` for a positive step `cs`:
`for i in range(0, len(file_paths), cs): chunks.append(file_paths[i:i+cs])`.
For `cs ≥ 1` the slice `file_paths[i:i+cs]` of a nonempty remainder
`x :: xs` is `x :: xs.take (cs - 1)` and the next iteration continues from
`xs.drop (cs - 1)`.  (Only called with `cs ≥ 1`.) -/
def chunkLoop (cs : Nat) : List String → List (List String)
  | [] => []
  | x :: xs => (x :: xs.take (cs - 1)) :: chunkLoop cs (xs.drop (cs - 1))
termination_by xs => xs.length
decreasing_by simp [List.length_drop]; omega

/-- Embeds `ChunkingNode.execute` after the inputs have been JSON-decoded
(`file_paths : list`, `chunk_size : int`).  With `chunk_size = 0` Python's
`range` raises `ValueError: range() arg 3 must not be zero` (uncaught);
with a negative `chunk_size`, `range(0, len(file_paths), chunk_size)` is
empty, so the node returns an empty list of chunks. -/
def chunkingExecute (file_paths : List String) (chunk_size : Int) :
    Except String (List (List String)) :=
  if chunk_size == 0 then .error "range() arg 3 must not be zero"
  else if chunk_size < 0 then .ok []
  else .ok (chunkLoop chunk_size.toNat file_paths)

/-! ## Validator — nodes/validation.py -/

/-- Check that a JSON value is a string (`{"type": "string"}`). -/
def isStrJ : Json → Bool
  | .str _ => true
  | _ => false

/-- Check that a JSON value is an object (`{"type": "object"}`). -/
def isObjJ : Json → Bool
  | .obj _ => true
  | _ => false

/-- Check that a JSON value is an integer (`{"type": "integer"}`). -/
def isIntJ : Json → Bool
  | .num _ => true
  | _ => false

/-- One `properties` entry of a jsonschema object schema: a property that is
present must satisfy its subschema; an absent property is fine. -/
def propOk (fields : List (String × Json)) (k : String) (check : Json → Bool) : Bool :=
  match List.lookup k fields with
  | none => true
  | some v => check v

/-- A key listed under `required` must be present. -/
def requiredOk (fields : List (String × Json)) (k : String) : Bool :=
  (List.lookup k fields).isSome

/-- The subschema of `extracted_data` in `ValidationNode.execute`:
an object with `title`/`content` strings and optional object `metadata`,
`required: ["title", "content"]`. -/
def extractedDataOk : Json → Bool
  | .obj fs =>
    propOk fs "title" isStrJ && propOk fs "content" isStrJ &&
    propOk fs "metadata" isObjJ &&
    requiredOk fs "title" && requiredOk fs "content"
  | _ => false

/-- Embeds `jsonschema.validate(individual_result, schema)` for the fixed
schema of `ValidationNode.execute`: an object with string properties
`task_id`, `status`, `file_path`, `split_timestamp`, integer
`result_index`, objects `extracted_data` (see `extractedDataOk`) and
`batch_info`, and `required: ["task_id", "status", "file_path",
"extracted_data"]`.  Returns `true` exactly when validation succeeds. -/
def schemaOk : Json → Bool
  | .obj fs =>
    propOk fs "task_id" isStrJ && propOk fs "status" isStrJ &&
    propOk fs "result_index" isIntJ && propOk fs "file_path" isStrJ &&
    propOk fs "extracted_data" extractedDataOk && propOk fs "batch_info" isObjJ &&
    propOk fs "split_timestamp" isStrJ &&
    requiredOk fs "task_id" && requiredOk fs "status" &&
    requiredOk fs "file_path" && requiredOk fs "extracted_data"
  | _ => false

/-- The heuristic classification of `ValidationNode.execute` after the schema
check passed, as a function of `extracted_data`: start from `"valid"`,
downgrade to `"partial"` when `title` or `content` is falsy, then downgrade
to `"partial"` when `len(content.strip()) < 10`. -/
def statusFromExtracted (extracted_data : Json) : String :=
  let validation_status := "valid"
  let validation_status :=
    if jsonFalsy (extracted_data.get "title") || jsonFalsy (extracted_data.get "content") then
      "partial"
    else validation_status
  let content := strOrD (extracted_data.get "content") ""
  let validation_status :=
    if (pyStrip content).length < 10 then "partial" else validation_status
  validation_status

/-- The outputs of `ValidationNode.execute`: the `validated_data` JSON and
the `validation_status` string. -/
structure ValidationOutputs where
  validated_data : Json
  validation_status : String

/-- Embeds `ValidationNode.execute` after its inputs have been JSON-decoded.
`ts` stands for `self._get_timestamp()` and `schemaErr` for `str(e)`, the
message of the `jsonschema.ValidationError` raised when the schema check
fails. -/
def validationExecute (ts schemaErr : String) (individual_result batch_info : Json) :
    ValidationOutputs :=
  if schemaOk individual_result then
    let file_path := strOrD (individual_result.get "file_path") ""
    let extracted_data := getD (individual_result.get "extracted_data") (Json.obj [])
    let validation_status := statusFromExtracted extracted_data
    { validated_data := Json.obj
        [("task_id", getD (individual_result.get "task_id") Json.null),
         ("status", getD (individual_result.get "status") Json.null),
         ("result_index", getD (individual_result.get "result_index") Json.null),
         ("file_path", .str file_path),
         ("extracted_data", extracted_data),
         ("validation_timestamp", .str ts),
         ("validation_status", .str validation_status),
         ("batch_info", batch_info)],
      validation_status := validation_status }
  else
    { validated_data := Json.obj
        [("task_id", getD (individual_result.get "task_id") (.str "unknown")),
         ("status", .str "validation_failed"),
         ("result_index", getD (individual_result.get "result_index") (.num (-1))),
         ("file_path", getD (individual_result.get "file_path") (.str "unknown")),
         ("error", .str schemaErr),
         ("validation_timestamp", .str ts),
         ("validation_status", .str "invalid"),
         ("batch_info", batch_info)],
      validation_status := "invalid" }

/-! ## Failure Router — nodes/failure_handling.py -/

/-- Embeds `FailureHandlingNode._get_failure_reason`. -/
def getFailureReason (validation_status : String) (validated_data : Json) : String :=
  if validation_status == "invalid" then "schema_validation_failed"
  else if validation_status == "partial" then
    let extracted_data := getD (validated_data.get "extracted_data") (Json.obj [])
    if jsonFalsy (extracted_data.get "title") then "missing_title"
    else if jsonFalsy (extracted_data.get "content") then "missing_content"
    else if (pyStrip (strOrD (extracted_data.get "content") "")).length < 10 then
      "content_too_short"
    else "validation_failed"
  else "unknown_failure"

/-- The routing decision of `FailureHandlingNode.execute`: `noop` is the
early return on `validation_status == "valid"` (no CSV written,
`retry_count = "0"`); otherwise `ledgerEntry` carries the data row that
`_create_failure_csv` appends to the retry-ledger CSV
(`file_path`, `failure_reason`, `task_id`; the wall-clock timestamp column
is omitted from the model). -/
inductive RouteOutcome where
  | noop
  | ledgerEntry (file_path failure_reason task_id : String)

/-- Embeds `FailureHandlingNode.execute` after input parsing, with the CSV
side effect abstracted to the row content (see `RouteOutcome`). -/
def failureRoute (validation_status : String) (validated_data : Json) : RouteOutcome :=
  if validation_status == "valid" then .noop
  else
    .ledgerEntry (strOrD (validated_data.get "file_path") "")
      (getFailureReason validation_status validated_data)
      (strOrD (validated_data.get "task_id") "unknown")

/-! ## Result Splitter — nodes/split_results.py -/

/-- The list held in an optional JSON value, defaulting to `[]` for a
missing key; mirrors `task_result.get("results", [])`. -/
def arrOrNil (v : Option Json) : List Json :=
  match v with
  | some (.arr es) => es
  | _ => []

/-- One output of `SplitResultsNode.execute`. -/
structure SplitOutputs where
  individual_result : Json
  batch_info : Json

/-- The metadata object embedded in synthesized `extracted_data`
(plain-text and empty-content cases of `SplitResultsNode.execute`). -/
def splitMeta (response_id model_version : String) (usage_metadata : Json) : Json :=
  Json.obj
    [("response_id", .str response_id),
     ("model_version", .str model_version),
     ("usage_metadata", usage_metadata)]

/-- The body of the `for i, result in enumerate(results)` loop of
`SplitResultsNode.execute`, building one individual result.  `jsonLoadsOpt`
models the `try: json.loads(content) except JSONDecodeError` block
(`none` = parse failure). -/
def buildIndividual (jsonLoadsOpt : String → Option Json) (ts : String)
    (task_id status : String) (batch_info : Json) (i : Nat) (result : Json) : Json :=
  let content := strOrD (result.get "content") ""
  let response_id := strOrD (result.get "response_id") ("response_" ++ toString i)
  let model_version := strOrD (result.get "model_version") "unknown"
  let usage_metadata := getD (result.get "usage_metadata") (Json.obj [])
  let extracted_data :=
    if !(content == "") then
      match jsonLoadsOpt content with
      | some parsed => parsed
      | none =>
        Json.obj
          [("title", .str "Document"),
           ("content", .str content),
           ("metadata", splitMeta response_id model_version usage_metadata)]
    else
      Json.obj
        [("title", .str "Empty Response"),
         ("content", .str "No content received"),
         ("metadata", splitMeta response_id model_version usage_metadata)]
  let file_path := if response_id.data.contains '_' then response_id else ""
  Json.obj
    [("task_id", .str task_id),
     ("status", .str status),
     ("result_index", .num (Int.ofNat i)),
     ("response_id", .str response_id),
     ("model_version", .str model_version),
     ("usage_metadata", usage_metadata),
     ("file_path", .str file_path),
     ("extracted_data", extracted_data),
     ("batch_info", batch_info),
     ("split_timestamp", .str ts)]

/-- Embeds `SplitResultsNode.execute` after input parsing: read
`results`, `task_id` and `status` from the task result; an empty (or
missing) `results` list returns `[]`; otherwise one output per result
entry, enumerated from 0. -/
def splitExecute (jsonLoadsOpt : String → Option Json) (ts : String)
    (task_result batch_info : Json) : List SplitOutputs :=
  let results := arrOrNil (task_result.get "results")
  let task_id := strOrD (task_result.get "task_id") "unknown"
  let status := strOrD (task_result.get "status") "unknown"
  if results.isEmpty then []
  else
    results.enum.map (fun p =>
      { individual_result := buildIndividual jsonLoadsOpt ts task_id status batch_info p.1 p.2,
        batch_info := batch_info })

/-! ## Batch Submitter content extraction — nodes/file_parsing.py -/

/-- One entry of the `parsed_files` list built by `FileParsingNode.execute`:
`file_path` and `content` always, plus an `error` field when reading the
file raised. -/
structure ParsedFile where
  file_path : String
  content : String
  error : Option String

/-- The body of the per-path loop of `FileParsingNode.execute`.  `readFile`
is the `self._read_file_content` oracle; `Except.error e` models a raised
exception with `str(e) = e`, whose entry gets the diagnostic-marker content
`"[ERROR: Failed to read file - " ++ e ++ "]"`. -/
def parsedEntry (readFile : String → Except String String) (file_path : String) :
    ParsedFile :=
  match readFile file_path with
  | .ok content => { file_path := file_path, content := content, error := none }
  | .error e =>
    { file_path := file_path,
      content := "[ERROR: Failed to read file - " ++ e ++ "]",
      error := some e }

/-- Embeds the extraction loop of `FileParsingNode.execute`: one
`parsed_files` entry per input path, in order, never aborting on a failing
file. -/
def fileParsingExecute (readFile : String → Except String String)
    (file_paths : List String) : List ParsedFile :=
  file_paths.map (parsedEntry readFile)

/-! ## Sample inputs used by witnesses -/

/-- A `json.loads` oracle for witnesses. -/
def sampleLoads : String → Json := fun s => Json.str s

/-- A `json.loads`-with-fallback oracle for witnesses (every payload fails
to parse as JSON). -/
def sampleLoadsOpt : String → Option Json := fun _ => none

/-- A file-download oracle for witnesses returning an empty body. -/
def sampleDownloadEmpty : String → String := fun _ => ""

/-- A content-extraction oracle for witnesses: reading `bad.txt` raises. -/
def sampleReadFile : String → Except String String :=
  fun p => if p = "bad.txt" then Except.error "boom" else Except.ok "file text"

/-- A batch job still in the pending state. -/
def pendingJob : BatchJob := { state_name := "JOB_STATE_PENDING", dest := none }

/-- A record that passes the validation schema. -/
def sampleValidRecord : Json := Json.obj
  [("task_id", .str "t"), ("status", .str "succeeded"), ("file_path", .str "doc.txt"),
   ("extracted_data", Json.obj [("title", .str "T"), ("content", .str "long enough text")])]

/-- A record with the same `extracted_data` as `sampleValidRecord` but
missing the required envelope fields, so the schema check fails. -/
def sampleSchemaFailRecord : Json := Json.obj
  [("extracted_data", Json.obj [("title", .str "T"), ("content", .str "long enough text")])]

/-- A second schema-passing record with the same `extracted_data` as
`sampleValidRecord` but a different envelope. -/
def sampleValidRecordB : Json := Json.obj
  [("task_id", .str "other-task"), ("status", .str "whatever"), ("file_path", .str "else.pdf"),
   ("extracted_data", Json.obj [("title", .str "T"), ("content", .str "long enough text")])]

/-! ## Claims -/

/-- Claim C1: the poll check maps the external status codes exactly as
pending→pending, running→processing, succeeded→completed, failed→failed,
cancelling→processing, cancelled→failed; and whenever the mapped status is
non-terminal (pending or processing), `execute` does not return a terminal
result but raises the requeue signal with a fixed 30-second delay. -/
theorem polling_status_map_and_requeue :
    (mapStatus "JOB_STATE_PENDING" = "pending" ∧
     mapStatus "JOB_STATE_RUNNING" = "processing" ∧
     mapStatus "JOB_STATE_SUCCEEDED" = "completed" ∧
     mapStatus "JOB_STATE_FAILED" = "failed" ∧
     mapStatus "JOB_STATE_CANCELLING" = "processing" ∧
     mapStatus "JOB_STATE_CANCELLED" = "failed") ∧
    ∀ (jsonLoads : String → Json) (download : String → String) (task_id : String)
      (batch_job : BatchJob),
      (mapStatus batch_job.state_name = "pending" ∨
        mapStatus batch_job.state_name = "processing") →
      pollingExecute jsonLoads download task_id (Except.ok batch_job) =
        PollOutcome.requeue 30 := by
  refine ⟨by decide, ?_⟩
  intro jsonLoads download task_id batch_job h
  rcases h with h | h <;> simp [pollingExecute, checkTaskStatus, h]

/-- Witness for C1: a job reported `JOB_STATE_PENDING` is requeued after
30 seconds. -/
theorem polling_status_map_and_requeue_witness :
    pollingExecute sampleLoads sampleDownloadEmpty "task-1" (Except.ok pendingJob) =
      PollOutcome.requeue 30 :=
  polling_status_map_and_requeue.2 sampleLoads sampleDownloadEmpty "task-1" pendingJob
    (Or.inl (by decide))

/-- Claim C10: a status code outside the six mapped codes falls back to the
non-terminal internal status `pending`, so the check never returns a
terminal result for it — it always requeues after the 30-second delay. -/
theorem polling_unknown_status_requeues (state_name : String)
    (h : state_name ∉ ["JOB_STATE_PENDING", "JOB_STATE_RUNNING", "JOB_STATE_SUCCEEDED",
      "JOB_STATE_FAILED", "JOB_STATE_CANCELLING", "JOB_STATE_CANCELLED"]) :
    mapStatus state_name = "pending" ∧
    ∀ (jsonLoads : String → Json) (download : String → String) (task_id : String)
      (dest : Option BatchDest),
      pollingExecute jsonLoads download task_id
          (Except.ok { state_name := state_name, dest := dest }) =
        PollOutcome.requeue 30 := by
  simp only [List.mem_cons, List.not_mem_nil, or_false, not_or] at h
  obtain ⟨h1, h2, h3, h4, h5, h6⟩ := h
  have hmap : mapStatus state_name = "pending" := by
    simp [mapStatus, status_mapping, List.lookup,
      beq_eq_false_iff_ne.mpr h1, beq_eq_false_iff_ne.mpr h2, beq_eq_false_iff_ne.mpr h3,
      beq_eq_false_iff_ne.mpr h4, beq_eq_false_iff_ne.mpr h5, beq_eq_false_iff_ne.mpr h6]
  refine ⟨hmap, ?_⟩
  intro jsonLoads download task_id dest
  simp [pollingExecute, checkTaskStatus, hmap]

/-- Witness for C10: the unrecognized code `JOB_STATE_EXPIRED` is mapped to
`pending` and requeued. -/
theorem polling_unknown_status_requeues_witness :
    mapStatus "JOB_STATE_EXPIRED" = "pending" ∧
    pollingExecute sampleLoads sampleDownloadEmpty "task-2"
        (Except.ok { state_name := "JOB_STATE_EXPIRED", dest := none }) =
      PollOutcome.requeue 30 := by
  have h := polling_unknown_status_requeues "JOB_STATE_EXPIRED" (by decide)
  exact ⟨h.1, h.2 sampleLoads sampleDownloadEmpty "task-2" none⟩

/-- Counterexample to C4: `ChunkingNode.execute` does not fail on a negative
`chunk_size` — `range(0, len(file_paths), -1)` is empty, so it returns an
empty sequence of chunks instead of raising any error. -/
theorem chunking_negative_returns_chunks :
    chunkingExecute ["a", "b"] (-1) = Except.ok [] := by rfl

/-- Claim C4 as amended: there is no `InvalidConfig` validation in
`ChunkingNode.execute`; `chunk_size = 0` raises Python's `ValueError` from
`range` (an uncaught exception, modelled as `Except.error`), and a negative
`chunk_size` does not fail at all — it returns an empty list of chunks. -/
theorem chunking_nonpositive_behavior (file_paths : List String) :
    chunkingExecute file_paths 0 = Except.error "range() arg 3 must not be zero" ∧
    ∀ chunk_size : Int, chunk_size < 0 →
      chunkingExecute file_paths chunk_size = Except.ok [] := by
  refine ⟨by simp [chunkingExecute], ?_⟩
  intro chunk_size h
  simp [chunkingExecute, h, show ¬ chunk_size = 0 by omega]

/-- Witness for amended C4: `chunk_size = 0` errors and `chunk_size = -2`
returns no chunks. -/
theorem chunking_nonpositive_behavior_witness :
    chunkingExecute ["x"] 0 = Except.error "range() arg 3 must not be zero" ∧
    chunkingExecute ["x"] (-2) = Except.ok [] :=
  ⟨(chunking_nonpositive_behavior ["x"]).1,
   (chunking_nonpositive_behavior ["x"]).2 (-2) (by decide)⟩

/-- Claim C2: on a completed job, results come from the inline-response list
when present; otherwise from the downloaded line-delimited JSON result
file; with neither, the job is treated as failed with a diagnostic message;
and a transport error during the status query makes `execute` return the
terminal failed output instead of retrying or propagating. -/
theorem polling_completed_result_retrieval (jsonLoads : String → Json)
    (download : String → String) (task_id : String) :
    (∀ (d : BatchDest) (irs : List InlinedResponse),
      d.inlined_responses = some irs →
      getTaskResults jsonLoads download task_id
          { state_name := "JOB_STATE_SUCCEEDED", dest := some d } =
        { task_id := task_id, status := "completed", error := none,
          results := irs.map buildInlineResult }) ∧
    (∀ (d : BatchDest) (file_name : String),
      d.inlined_responses = none → d.file_name = some file_name → file_name ≠ "" →
      getTaskResults jsonLoads download task_id
          { state_name := "JOB_STATE_SUCCEEDED", dest := some d } =
        { task_id := task_id, status := "completed", error := none,
          results := (jsonlLines (download file_name)).map jsonLoads }) ∧
    (∀ (d : BatchDest),
      d.inlined_responses = none → (d.file_name = none ∨ d.file_name = some "") →
      getTaskResults jsonLoads download task_id
          { state_name := "JOB_STATE_SUCCEEDED", dest := some d } =
        noOutputResult task_id) ∧
    (getTaskResults jsonLoads download task_id
        { state_name := "JOB_STATE_SUCCEEDED", dest := none } =
      noOutputResult task_id) ∧
    ((noOutputResult task_id).status = "failed" ∧
      (noOutputResult task_id).error = some "No output file or inlined responses available") ∧
    (∀ e, pollingExecute jsonLoads download task_id (Except.error e) =
      PollOutcome.failedOutputs) := by
  refine ⟨?_, ?_, ?_, by simp [getTaskResults], ⟨rfl, rfl⟩, ?_⟩
  · intro d irs h
    simp [getTaskResults, h]
  · intro d file_name hinl hfn hne
    simp [getTaskResults, hinl, hfn, hne]
  · intro d hinl hfn
    rcases hfn with hfn | hfn <;> simp [getTaskResults, hinl, hfn]
  · intro e
    simp [pollingExecute, checkTaskStatus]

/-- Witness for C2: a completed job whose output file downloads to an empty
body yields a completed task result with no entries, and a transport error
yields the terminal failed output. -/
theorem polling_completed_result_retrieval_witness :
    getTaskResults sampleLoads sampleDownloadEmpty "t9"
        { state_name := "JOB_STATE_SUCCEEDED",
          dest := some { inlined_responses := none, file_name := some "results.jsonl" } } =
      { task_id := "t9", status := "completed", error := none, results := [] } ∧
    pollingExecute sampleLoads sampleDownloadEmpty "t9" (Except.error "connection reset") =
      PollOutcome.failedOutputs := by
  have h := polling_completed_result_retrieval sampleLoads sampleDownloadEmpty "t9"
  refine ⟨?_, h.2.2.2.2.2 "connection reset"⟩
  have hb := h.2.1 { inlined_responses := none, file_name := some "results.jsonl" }
    "results.jsonl" rfl rfl (by decide)
  exact hb.trans (by rfl)

/-- The chunk loop yields no chunks exactly on an empty input. -/
theorem chunkLoop_eq_nil_iff (cs : Nat) (xs : List String) :
    chunkLoop cs xs = [] ↔ xs = [] := by
  cases xs <;> simp [chunkLoop]

/-- Concatenating the chunks in order restores the input list. -/
theorem chunkLoop_flatten (cs : Nat) (xs : List String) :
    (chunkLoop cs xs).flatten = xs := by
  induction xs using chunkLoop.induct cs with
  | case1 => simp [chunkLoop]
  | case2 x xs ih => simp [chunkLoop, ih]

/-- The number of chunks is the ceiling of `length / cs`, written
`(length + cs - 1) / cs` over the naturals. -/
theorem chunkLoop_length (cs : Nat) (hk : 1 ≤ cs) (xs : List String) :
    (chunkLoop cs xs).length = (xs.length + cs - 1) / cs := by
  induction xs using chunkLoop.induct cs with
  | case1 =>
    simp [chunkLoop, Nat.div_eq_of_lt (by omega : cs - 1 < cs)]
  | case2 x xs ih =>
    rw [chunkLoop]
    simp only [List.length_cons, List.length_drop] at ih ⊢
    rw [ih]
    have hrw : xs.length + 1 + cs - 1 = xs.length + cs := by omega
    rw [hrw, Nat.add_div_right _ (by omega : 0 < cs)]
    rcases Nat.lt_or_ge xs.length (cs - 1) with hlt | hge
    · have h0 : xs.length - (cs - 1) = 0 := by omega
      rw [h0]
      rw [Nat.div_eq_of_lt (by omega : 0 + cs - 1 < cs),
        Nat.div_eq_of_lt (by omega : xs.length < cs)]
    · have h1 : xs.length - (cs - 1) + cs - 1 = xs.length := by omega
      rw [h1]

/-- Every chunk has at most `cs` elements. -/
theorem chunkLoop_chunk_size_le (cs : Nat) (hk : 1 ≤ cs) (xs : List String) :
    ∀ c ∈ chunkLoop cs xs, c.length ≤ cs := by
  induction xs using chunkLoop.induct cs with
  | case1 => simp [chunkLoop]
  | case2 x xs ih =>
    rw [chunkLoop]
    intro c hc
    rcases List.mem_cons.mp hc with rfl | hc
    · simp [List.length_take]
      omega
    · exact ih c hc

/-- Every chunk except possibly the last has exactly `cs` elements. -/
theorem chunkLoop_dropLast_size (cs : Nat) (hk : 1 ≤ cs) (xs : List String) :
    ∀ c ∈ (chunkLoop cs xs).dropLast, c.length = cs := by
  induction xs using chunkLoop.induct cs with
  | case1 => simp [chunkLoop]
  | case2 x xs ih =>
    rw [chunkLoop]
    by_cases hrest : xs.drop (cs - 1) = []
    · rw [hrest]
      simp [chunkLoop]
    · have hne : chunkLoop cs (xs.drop (cs - 1)) ≠ [] := by
        rw [ne_eq, chunkLoop_eq_nil_iff]
        exact hrest
      rw [List.dropLast_cons_of_ne_nil hne]
      intro c hc
      rcases List.mem_cons.mp hc with rfl | hc
      · have hxs : cs - 1 ≤ xs.length := by
          by_contra hx
          exact hrest (List.drop_of_length_le (by omega))
        simp [List.length_take]
        omega
      · exact ih c hc

/-- Claim C3: for every `chunk_size ≥ 1`, execute returns exactly
`ceil(N / chunk_size)` chunks (written `(N + cs - 1) / cs` over naturals),
their in-order concatenation is the input list, every chunk has at most
`chunk_size` elements, and every chunk except possibly the last has exactly
`chunk_size` elements. -/
theorem chunking_partitions (file_paths : List String) (chunk_size : Int)
    (h : 1 ≤ chunk_size) :
    chunkingExecute file_paths chunk_size =
      Except.ok (chunkLoop chunk_size.toNat file_paths) ∧
    (chunkLoop chunk_size.toNat file_paths).length =
      (file_paths.length + chunk_size.toNat - 1) / chunk_size.toNat ∧
    (chunkLoop chunk_size.toNat file_paths).flatten = file_paths ∧
    (∀ c ∈ chunkLoop chunk_size.toNat file_paths, c.length ≤ chunk_size.toNat) ∧
    (∀ c ∈ (chunkLoop chunk_size.toNat file_paths).dropLast,
      c.length = chunk_size.toNat) := by
  have hk : 1 ≤ chunk_size.toNat := by omega
  refine ⟨?_, chunkLoop_length _ hk _, chunkLoop_flatten _ _,
    chunkLoop_chunk_size_le _ hk _, chunkLoop_dropLast_size _ hk _⟩
  simp [chunkingExecute, show ¬ chunk_size = 0 by omega, show ¬ chunk_size < 0 by omega]

/-- Witness for C3: three paths with `chunk_size = 2` give the two chunks
`[[a, b], [c]]`, of sizes 2 and 1. -/
theorem chunking_partitions_witness :
    chunkingExecute ["a", "b", "c"] 2 = Except.ok [["a", "b"], ["c"]] ∧
    (chunkLoop (Int.toNat 2) ["a", "b", "c"]).length = 2 := by
  have h := chunking_partitions ["a", "b", "c"] 2 (by decide)
  have heval : chunkLoop (Int.toNat 2) ["a", "b", "c"] = [["a", "b"], ["c"]] := by
    simp [chunkLoop]
  exact ⟨h.1.trans (by rw [heval]), h.2.1.trans (by decide)⟩

/-- A value passing the `extracted_data` subschema has string `title` and
`content` fields. -/
theorem extractedDataOk_strings (ed : Json) (h : extractedDataOk ed = true) :
    ∃ t c, ed.get "title" = some (Json.str t) ∧ ed.get "content" = some (Json.str c) := by
  cases ed with
  | obj fs =>
    simp only [extractedDataOk, Bool.and_eq_true] at h
    obtain ⟨⟨⟨⟨hpt, hpc⟩, hpm⟩, hrt⟩, hrc⟩ := h
    rw [requiredOk, Option.isSome_iff_exists] at hrt hrc
    obtain ⟨tv, htv⟩ := hrt
    obtain ⟨cv, hcv⟩ := hrc
    rw [propOk, htv] at hpt
    rw [propOk, hcv] at hpc
    cases tv with
    | str t =>
      cases cv with
      | str c => exact ⟨t, c, by simp [Json.get, htv], by simp [Json.get, hcv]⟩
      | num n => simp [isStrJ] at hpc
      | bool b => simp [isStrJ] at hpc
      | null => simp [isStrJ] at hpc
      | arr es => simp [isStrJ] at hpc
      | obj fs2 => simp [isStrJ] at hpc
    | num n => simp [isStrJ] at hpt
    | bool b => simp [isStrJ] at hpt
    | null => simp [isStrJ] at hpt
    | arr es => simp [isStrJ] at hpt
    | obj fs2 => simp [isStrJ] at hpt
  | str s => simp [extractedDataOk] at h
  | num n => simp [extractedDataOk] at h
  | bool b => simp [extractedDataOk] at h
  | null => simp [extractedDataOk] at h
  | arr es => simp [extractedDataOk] at h

/-- A record passing the full schema has an `extracted_data` object that
passes the subschema. -/
theorem schemaOk_extracted (r : Json) (h : schemaOk r = true) :
    ∃ ed, r.get "extracted_data" = some ed ∧ extractedDataOk ed = true := by
  cases r with
  | obj fs =>
    simp only [schemaOk, Bool.and_eq_true] at h
    obtain ⟨⟨⟨⟨⟨⟨⟨⟨⟨⟨hti, hst⟩, hri⟩, hfp⟩, hed⟩, hbi⟩, hts⟩, hrt⟩, hrs⟩, hrf⟩, hre⟩ := h
    rw [requiredOk, Option.isSome_iff_exists] at hre
    obtain ⟨ed, hedv⟩ := hre
    rw [propOk, hedv] at hed
    exact ⟨ed, by simp [Json.get, hedv], hed⟩
  | str s => simp [schemaOk] at h
  | num n => simp [schemaOk] at h
  | bool b => simp [schemaOk] at h
  | null => simp [schemaOk] at h
  | arr es => simp [schemaOk] at h

/-- With string `title` and `content`, the heuristic classification is
`partial` exactly when the title is empty, the content is empty, or the
stripped content is shorter than 10 characters. -/
theorem statusFromExtracted_eq (ed : Json) (t c : String)
    (ht : ed.get "title" = some (Json.str t)) (hc : ed.get "content" = some (Json.str c)) :
    statusFromExtracted ed =
      if t = "" ∨ c = "" ∨ (pyStrip c).length < 10 then "partial" else "valid" := by
  simp only [statusFromExtracted, ht, hc, jsonFalsy, strOrD]
  by_cases h1 : t = "" <;> by_cases h2 : c = "" <;>
    by_cases h3 : (pyStrip c).length < 10 <;> simp [h1, h2, h3]

/-- Claim C5: a record failing the structural schema check gets
`validation_status = "invalid"` and its validated data carries the failure
description, with no heuristic check run; a record passing the schema check
gets `"partial"` exactly when its title is empty, its content is empty, or
the stripped content is shorter than 10 characters, and `"valid"`
otherwise. -/
theorem validation_classification (ts schemaErr : String) (individual_result batch_info : Json) :
    (schemaOk individual_result = false →
      (validationExecute ts schemaErr individual_result batch_info).validation_status =
        "invalid" ∧
      (validationExecute ts schemaErr individual_result batch_info).validated_data.get
        "error" = some (Json.str schemaErr)) ∧
    (schemaOk individual_result = true →
      ∃ ed t c, individual_result.get "extracted_data" = some ed ∧
        ed.get "title" = some (Json.str t) ∧ ed.get "content" = some (Json.str c) ∧
        (validationExecute ts schemaErr individual_result batch_info).validation_status =
          (if t = "" ∨ c = "" ∨ (pyStrip c).length < 10 then "partial" else "valid")) := by
  constructor
  · intro h
    constructor <;> simp [validationExecute, h, Json.get, List.lookup]
  · intro h
    obtain ⟨ed, hed, hok⟩ := schemaOk_extracted individual_result h
    obtain ⟨t, c, ht, hc⟩ := extractedDataOk_strings ed hok
    refine ⟨ed, t, c, hed, ht, hc, ?_⟩
    rw [show (validationExecute ts schemaErr individual_result batch_info).validation_status
        = statusFromExtracted ed by simp [validationExecute, h, hed, getD]]
    exact statusFromExtracted_eq ed t c ht hc

/-- Witness for C5: a record missing the required envelope fields is
classified `invalid` and carries the error text, while a schema-passing
record with a long-enough title and content is classified `valid`. -/
theorem validation_classification_witness :
    (validationExecute "ts" "err-text" sampleSchemaFailRecord (Json.obj [])).validation_status =
      "invalid" ∧
    (validationExecute "ts" "err-text" sampleSchemaFailRecord
      (Json.obj [])).validated_data.get "error" = some (Json.str "err-text") ∧
    (validationExecute "ts" "err-text" sampleValidRecord (Json.obj [])).validation_status =
      "valid" := by
  have hbad := (validation_classification "ts" "err-text" sampleSchemaFailRecord
    (Json.obj [])).1 (by decide)
  have hgood := (validation_classification "ts" "err-text" sampleValidRecord
    (Json.obj [])).2 (by decide)
  obtain ⟨ed, t, c, hed, ht, hc, hstat⟩ := hgood
  refine ⟨hbad.1, hbad.2, hstat.trans ?_⟩
  have hed2 : ed = Json.obj [("title", .str "T"), ("content", .str "long enough text")] := by
    have : sampleValidRecord.get "extracted_data" =
        some (Json.obj [("title", .str "T"), ("content", .str "long enough text")]) := by rfl
    rw [this] at hed
    exact (Option.some_injective _ hed).symm
  subst hed2
  have ht2 : t = "T" := by
    have : (Json.obj [("title", .str "T"), ("content", .str "long enough text")]).get "title"
        = some (Json.str "T") := by rfl
    rw [this] at ht
    cases ht
    rfl
  have hc2 : c = "long enough text" := by
    have : (Json.obj [("title", .str "T"), ("content", .str "long enough text")]).get "content"
        = some (Json.str "long enough text") := by rfl
    rw [this] at hc
    cases hc
    rfl
  subst ht2
  subst hc2
  decide

/-- Counterexample to C7: two individual results with identical
`extracted_data` receive different validation statuses, because the schema
check also inspects the envelope fields `task_id`, `status` and
`file_path`. -/
theorem validation_status_not_function_of_extracted :
    sampleValidRecord.get "extracted_data" = sampleSchemaFailRecord.get "extracted_data" ∧
    (validationExecute "ts" "err" sampleValidRecord (Json.obj [])).validation_status =
      "valid" ∧
    (validationExecute "ts" "err" sampleSchemaFailRecord (Json.obj [])).validation_status =
      "invalid" := by
  refine ⟨rfl, by decide, by decide⟩

/-- Claim C7 as amended: among records that pass the structural schema
check, the assigned `validation_status` is a pure function of
`extracted_data` — unaffected by every other field of the record, by the
batch metadata, by the timestamp and by the schema-error text (and hence by
any external service state). -/
theorem validation_pure_on_schema_passing (ts1 ts2 e1 e2 : String)
    (r1 r2 bi1 bi2 : Json) (h1 : schemaOk r1 = true) (h2 : schemaOk r2 = true)
    (hed : r1.get "extracted_data" = r2.get "extracted_data") :
    (validationExecute ts1 e1 r1 bi1).validation_status =
      (validationExecute ts2 e2 r2 bi2).validation_status := by
  simp [validationExecute, h1, h2, hed]

/-- Witness for amended C7: two schema-passing records with different
envelopes but equal `extracted_data` get the same status. -/
theorem validation_pure_on_schema_passing_witness :
    (validationExecute "ts1" "e1" sampleValidRecord (Json.obj [])).validation_status =
      (validationExecute "ts2" "e2" sampleValidRecordB
        (Json.obj [("k", Json.str "v")])).validation_status :=
  validation_pure_on_schema_passing "ts1" "ts2" "e1" "e2" sampleValidRecord
    sampleValidRecordB (Json.obj []) (Json.obj [("k", Json.str "v")])
    (by decide) (by decide) rfl

/-- Claim C6: routing is a no-op on `valid`; an `invalid` status yields
reason `schema_validation_failed`; for `partial` the reason is the first
match among `missing_title`, `missing_content`, `content_too_short`,
`validation_failed`, in that priority order; and on the two concrete
examples — title `""` with content `"hello"`, and title `"x"` with content
`"short"` — the reasons are `missing_title` and `content_too_short`. -/
theorem failure_routing_reasons (validated_data : Json) :
    failureRoute "valid" validated_data = RouteOutcome.noop ∧
    getFailureReason "invalid" validated_data = "schema_validation_failed" ∧
    (jsonFalsy ((getD (validated_data.get "extracted_data") (Json.obj [])).get "title") =
        true →
      getFailureReason "partial" validated_data = "missing_title") ∧
    (jsonFalsy ((getD (validated_data.get "extracted_data") (Json.obj [])).get "title") =
        false →
      jsonFalsy ((getD (validated_data.get "extracted_data") (Json.obj [])).get "content") =
        true →
      getFailureReason "partial" validated_data = "missing_content") ∧
    (jsonFalsy ((getD (validated_data.get "extracted_data") (Json.obj [])).get "title") =
        false →
      jsonFalsy ((getD (validated_data.get "extracted_data") (Json.obj [])).get "content") =
        false →
      (pyStrip (strOrD ((getD (validated_data.get "extracted_data")
        (Json.obj [])).get "content") "")).length < 10 →
      getFailureReason "partial" validated_data = "content_too_short") ∧
    (jsonFalsy ((getD (validated_data.get "extracted_data") (Json.obj [])).get "title") =
        false →
      jsonFalsy ((getD (validated_data.get "extracted_data") (Json.obj [])).get "content") =
        false →
      ¬ (pyStrip (strOrD ((getD (validated_data.get "extracted_data")
        (Json.obj [])).get "content") "")).length < 10 →
      getFailureReason "partial" validated_data = "validation_failed") ∧
    getFailureReason "partial" (Json.obj [("extracted_data",
      Json.obj [("title", Json.str ""), ("content", Json.str "hello")])]) =
      "missing_title" ∧
    getFailureReason "partial" (Json.obj [("extracted_data",
      Json.obj [("title", Json.str "x"), ("content", Json.str "short")])]) =
      "content_too_short" := by
  refine ⟨by simp [failureRoute], by simp [getFailureReason], ?_, ?_, ?_, ?_,
    by decide, by decide⟩
  · intro h1
    simp [getFailureReason, h1]
  · intro h1 h2
    simp [getFailureReason, h1, h2]
  · intro h1 h2 h3
    simp [getFailureReason, h1, h2, h3]
  · intro h1 h2 h3
    simp [getFailureReason, h1, h2, h3]

/-- Witness for C6: the priority conditions applied at a concrete partial
record whose title is present but whose content is empty. -/
theorem failure_routing_reasons_witness :
    getFailureReason "partial" (Json.obj [("extracted_data",
      Json.obj [("title", Json.str "x"), ("content", Json.str "")])]) =
      "missing_content" :=
  (failure_routing_reasons (Json.obj [("extracted_data",
    Json.obj [("title", Json.str "x"), ("content", Json.str "")])])).2.2.2.1
    (by decide) (by decide)

/-- Each emitted individual result records its enumeration index under
`result_index`. -/
theorem buildIndividual_result_index (jsonLoadsOpt : String → Option Json)
    (ts task_id status : String) (batch_info : Json) (i : Nat) (result : Json) :
    (buildIndividual jsonLoadsOpt ts task_id status batch_info i result).get
      "result_index" = some (Json.num (Int.ofNat i)) := rfl

/-- Mapping a function of the index over an enumerated list is mapping it
over `range`. -/
theorem enum_map_fst_apply {β : Type} (f : Nat → β) (l : List Json) :
    l.enum.map (fun p => f p.1) = (List.range l.length).map f := by
  rw [List.enum_eq_zip_range,
    show (fun p : Nat × Json => f p.1) = f ∘ Prod.fst from rfl, ← List.map_map,
    List.map_fst_zip _ _ (by simp)]

/-- Claim C8: the splitter emits exactly one individual result per entry of
the job's `results` list, their `result_index` values are precisely
0..N-1 in input order (hence contiguous and duplicate-free), and a job
with zero results yields the empty sequence rather than an error. -/
theorem split_results_contiguous (jsonLoadsOpt : String → Option Json) (ts : String)
    (task_result batch_info : Json) :
    (splitExecute jsonLoadsOpt ts task_result batch_info).length =
      (arrOrNil (task_result.get "results")).length ∧
    (splitExecute jsonLoadsOpt ts task_result batch_info).map
        (fun o => o.individual_result.get "result_index") =
      (List.range (arrOrNil (task_result.get "results")).length).map
        (fun i => some (Json.num (Int.ofNat i))) ∧
    (arrOrNil (task_result.get "results") = [] →
      splitExecute jsonLoadsOpt ts task_result batch_info = []) := by
  refine ⟨?_, ?_, fun h => by simp [splitExecute, h]⟩
  · by_cases h : (arrOrNil (task_result.get "results")).isEmpty = true
    · simp [splitExecute, h, List.isEmpty_iff.mp h]
    · simp [splitExecute, h]
  · by_cases h : (arrOrNil (task_result.get "results")).isEmpty = true
    · simp [splitExecute, h, List.isEmpty_iff.mp h]
    · simp only [splitExecute, h, Bool.false_eq_true, if_false, List.map_map]
      rw [show ((fun o : SplitOutputs => o.individual_result.get "result_index") ∘ fun p =>
          SplitOutputs.mk (buildIndividual jsonLoadsOpt ts
            (strOrD (task_result.get "task_id") "unknown")
            (strOrD (task_result.get "status") "unknown") batch_info p.1 p.2) batch_info)
          = (fun p : Nat × Json => some (Json.num (Int.ofNat p.1))) from rfl]
      exact enum_map_fst_apply (fun i => some (Json.num (Int.ofNat i))) _

/-- Witness for C8: a completed job with an empty results list splits into
the empty sequence. -/
theorem split_results_contiguous_witness :
    splitExecute sampleLoadsOpt "ts"
        (Json.obj [("task_id", Json.str "t"), ("status", Json.str "completed"),
          ("results", Json.arr [])]) (Json.obj []) = [] :=
  (split_results_contiguous sampleLoadsOpt "ts"
    (Json.obj [("task_id", Json.str "t"), ("status", Json.str "completed"),
      ("results", Json.arr [])]) (Json.obj [])).2.2 rfl

/-- Claim C9: the extractor loop produces exactly one parsed entry per input
path, in order; a path whose read raised gets its content replaced by the
diagnostic marker (and the error recorded) while every other path is
processed normally — the failure never aborts the batch. -/
theorem file_parsing_degraded_but_complete (readFile : String → Except String String)
    (file_paths : List String) :
    fileParsingExecute readFile file_paths = file_paths.map (parsedEntry readFile) ∧
    (fileParsingExecute readFile file_paths).length = file_paths.length ∧
    (∀ p c, readFile p = Except.ok c →
      parsedEntry readFile p = { file_path := p, content := c, error := none }) ∧
    (∀ p e, readFile p = Except.error e →
      parsedEntry readFile p =
        { file_path := p,
          content := "[ERROR: Failed to read file - " ++ e ++ "]",
          error := some e }) := by
  refine ⟨rfl, by simp [fileParsingExecute], ?_, ?_⟩ <;>
    intro p s h <;> simp [parsedEntry, h]

/-- Witness for C9: with an oracle that fails on `bad.txt`, the failing path
yields the diagnostic entry and a good path yields its content. -/
theorem file_parsing_degraded_but_complete_witness :
    parsedEntry sampleReadFile "bad.txt" =
      { file_path := "bad.txt", content := "[ERROR: Failed to read file - boom]",
        error := some "boom" } ∧
    parsedEntry sampleReadFile "good.txt" =
      { file_path := "good.txt", content := "file text", error := none } := by
  have h := file_parsing_degraded_but_complete sampleReadFile ["bad.txt", "good.txt"]
  exact ⟨(h.2.2.2 "bad.txt" "boom" rfl).trans (by rfl),
    h.2.2.1 "good.txt" "file text" rfl⟩

end BatchProcessDocs
